import Mathlib

/-!
Verification of the Real-Time Lighting Designer Blender add-on
(`real_time_lighting_designer.py`).

The add-on is CRUD glue over the host scene graph: it creates light
objects, mirrors their parameters into a UI-facing list of
`RTLDLightSpec` records, serializes that list into JSON profiles, and a
depsgraph handler pushes the mirrored values back onto the objects.

Shallow embedding conventions:
* Scalars (Blender/Python floats) are modelled as `PyFloat`, a decimal
  token `fl m e` standing for `m * 10 ^ (-e)`; the add-on only copies
  float values around (and clamps the mirror color into [0,1]), it never
  computes with them, so literal tokens written consistently are an exact
  model and every definition reduces in the kernel.
* `bpy` object/light data blocks are modelled by `SceneObject`/`LightData`;
  the scene object list, the mirror list, the profile list and the scalar
  scene properties form `SceneState`.
* Python strings are modelled by `String`; `str.startswith` and
  `str.strip` are modelled structurally on the character list so that all
  definitions reduce in the kernel.
* The stored `data_json` string is modelled by `ProfileData`: either a
  string that does not parse (`malformed`) or the parsed array of records
  (`records`), with each field optional to model `dict.get(key, default)`.
* An operator's `execute` returns an `ExecResult`: the Blender return set
  (`FINISHED`/`CANCELLED`), the list of `self.report` messages, and the
  updated state.
-/

/-- The four light types the add-on handles (`EnumProperty` items). -/
inductive LightKind where
  | POINT
  | SUN
  | SPOT
  | AREA
deriving DecidableEq, Repr

/-- Host attribute model: only area lights expose a `size` attribute
(`hasattr(ld, 'size')` in Blender is true exactly for `AREA` data). -/
def hasSize : LightKind → Bool
  | .AREA => true
  | _ => false

/-- Host attribute model: only spot lights expose `spot_size`. -/
def hasSpotSize : LightKind → Bool
  | .SPOT => true
  | _ => false

/-- A Blender/Python float, as the decimal token written in the source:
`fl m e` denotes `m * 10 ^ (-e)`. The source never computes with float
values (the only operation is the `[0,1]` clamp of the mirror color), so
the decimal tokens, written consistently, model the values exactly. -/
structure PyFloat where
  mantissa : Int
  exponent : Nat
deriving DecidableEq, Repr

/-- Shorthand constructor for a float literal of the source. -/
def fl (m : Int) (e : Nat) : PyFloat := ⟨m, e⟩

/-- Comparison of two float tokens (by cross-multiplication). -/
def PyFloat.leB (a b : PyFloat) : Bool :=
  a.mantissa * ((10 ^ b.exponent : Nat) : Int) ≤ b.mantissa * ((10 ^ a.exponent : Nat) : Int)

/-- Python `min(a, b)`: the smaller argument, the first on ties. -/
def minF (a b : PyFloat) : PyFloat := if a.leB b then a else b

/-- Python `max(a, b)`: the larger argument, the first on ties. -/
def maxF (a b : PyFloat) : PyFloat := if b.leB a then a else b

/-- A triple of scalars (color, location, rotation_euler). -/
structure Vec3 where
  x : PyFloat
  y : PyFloat
  z : PyFloat
deriving DecidableEq, Repr

/-- A host light data block. The `size` / `spot_size` fields are only
meaningful when `hasSize kind` / `hasSpotSize kind`; assignments to an
unsupported attribute raise in the host and are modelled by the
`trySet...` helpers leaving the field untouched. -/
structure LightData where
  kind : LightKind
  color : Vec3
  energy : PyFloat
  size : PyFloat
  spot_size : PyFloat
  use_shadow : Bool
deriving DecidableEq, Repr

/-- The data block of a scene object: a light, or anything else. -/
inductive ObjData where
  | light (d : LightData)
  | other
deriving DecidableEq, Repr

/-- A host scene object: name, data block, and object-level transform. -/
structure SceneObject where
  name : String
  data : ObjData
  location : Vec3
  rotation_euler : Vec3
deriving DecidableEq, Repr

/-- `ob.type == 'LIGHT'`. -/
def isLightObj (ob : SceneObject) : Bool :=
  match ob.data with
  | .light _ => true
  | .other => false

/-- The light data of an object, when it is a light. -/
def lightDataOf (ob : SceneObject) : Option LightData :=
  match ob.data with
  | .light d => some d
  | .other => none

/-- The mirror record `RTLDLightSpec` (a `PropertyGroup`): a denormalized
copy of a live light. Its `color` property is declared with
`min=0.0, max=1.0`, so every assignment to it clamps componentwise. -/
structure RTLDLightSpec where
  name : String
  type : LightKind
  color : Vec3
  energy : PyFloat
  size : PyFloat
  spot_size : PyFloat
  use_shadow : Bool
  location : Vec3
  rotation : Vec3
deriving DecidableEq, Repr

/-- One JSON record of a stored profile array. Each field is optional,
modelling `item.get(key, default)` on the parsed dictionary. -/
structure LightRecord where
  name : Option String
  type : Option LightKind
  color : Option Vec3
  energy : Option PyFloat
  size : Option PyFloat
  spot_size : Option PyFloat
  use_shadow : Option Bool
  location : Option Vec3
  rotation : Option Vec3
deriving DecidableEq, Repr

/-- The `data_json` string of a profile, as seen through `json.loads`:
either a string that fails to parse, or the parsed array of records. -/
inductive ProfileData where
  | malformed (raw : String)
  | records (arr : List LightRecord)
deriving DecidableEq, Repr

/-- A saved profile (`RTLDProfile`): a name and the stored JSON payload. -/
structure RTLDProfile where
  name : String
  data_json : ProfileData
deriving DecidableEq, Repr

/-- The scene-level state the add-on reads and writes: the host object
list, the `RTLDSceneProps` contents, and the 3D cursor location (used as
the default transform of a newly added light). -/
structure SceneState where
  objects : List SceneObject
  lights : List RTLDLightSpec
  active_light_index : Int
  profiles : List RTLDProfile
  profile_name : String
  realtime_preview : Bool
  selected_light_name : String
  cursor : Vec3
deriving DecidableEq, Repr

/-- Blender operator return value (only the two the add-on uses). -/
inductive OpResult where
  | FINISHED
  | CANCELLED
deriving DecidableEq, Repr

/-- Result of one `execute` call: return set, reported messages, state. -/
structure ExecResult where
  res : OpResult
  msgs : List String
  state : SceneState
deriving DecidableEq, Repr

/-- `PREFIX = "RTLD_"`, the name prefix for lights created by the addon. -/
def PREFIX_RTLD : String := "RTLD_"

/-- Models Python `s.startswith(p)` structurally on characters. -/
def strStartsWith (s p : String) : Bool :=
  p.data.isPrefixOf s.data

/-- Models Python `s.strip()`: drop whitespace from both ends. -/
def pyStrip (s : String) : String :=
  ⟨((s.data.dropWhile Char.isWhitespace).reverse.dropWhile Char.isWhitespace).reverse⟩

/-- `_rtld_light_name(name)`: prepend the add-on prefix. -/
def rtldLightName (name : String) : String :=
  PREFIX_RTLD ++ name

/-- `find_rtld_lights(context)`: scene objects that are lights and whose
name starts with the prefix. -/
def find_rtld_lights (objects : List SceneObject) : List SceneObject :=
  objects.filter (fun ob => isLightObj ob && strStartsWith ob.name PREFIX_RTLD)

/-- `try: ld.size = v / except: pass` — the assignment succeeds exactly
when the (current) light kind supports `size`. -/
def trySetSize (d : LightData) (v : PyFloat) : LightData :=
  if hasSize d.kind then { d with size := v } else d

/-- `try: ld.spot_size = v / except: pass`. -/
def trySetSpotSize (d : LightData) (v : PyFloat) : LightData :=
  if hasSpotSize d.kind then { d with spot_size := v } else d

/-- Clamp one scalar into `[0, 1]` (FloatVectorProperty min/max). -/
def clamp01 (x : PyFloat) : PyFloat := maxF (fl 0 0) (minF (fl 1 0) x)

/-- Componentwise clamping performed by assigning to the mirror `color`. -/
def clampColor (c : Vec3) : Vec3 := ⟨clamp01 c.x, clamp01 c.y, clamp01 c.z⟩

/-- `create_light(context, name, light_type)`: a fresh light object named
`PREFIX + name`, linked into the scene. `hd` gives the host's default
light-data values per type (`bpy.data.lights.new`); the kind field is the
requested type. New objects have identity transform. -/
def create_light (hd : LightKind → LightData) (name : String)
    (light_type : LightKind) : SceneObject :=
  { name := rtldLightName name
    data := .light { hd light_type with kind := light_type }
    location := ⟨fl 0 0, fl 0 0, fl 0 0⟩
    rotation_euler := ⟨fl 0 0, fl 0 0, fl 0 0⟩ }

/-- The nine-assignment block `ls.name = ob.name; ls.type = ob.data.type;
... ; ls.rotation = ob.rotation_euler` that fills a fresh mirror entry
from a light object. `getattr(ob.data, 'size', 0.25)` and
`getattr(ob.data, 'spot_size', 0.785398)` yield the stored value only for
kinds that support the attribute. The `.other` branch is unreachable at
every use site (the object was just created as a light, or was selected
by `find_rtld_lights`). -/
def specFromSceneObj (ob : SceneObject) : RTLDLightSpec :=
  match ob.data with
  | .light d =>
      { name := ob.name
        type := d.kind
        color := clampColor d.color
        energy := d.energy
        size := if hasSize d.kind then d.size else fl 25 2
        spot_size := if hasSpotSize d.kind then d.spot_size else fl 785398 6
        use_shadow := d.use_shadow
        location := ob.location
        rotation := ob.rotation_euler }
  | .other =>
      { name := ob.name
        type := .POINT
        color := ⟨fl 0 0, fl 0 0, fl 0 0⟩
        energy := fl 10 0
        size := fl 25 2
        spot_size := fl 785398 6
        use_shadow := true
        location := ob.location
        rotation := ob.rotation_euler }

/-- The pattern `for x in xs: acc.add(); fill from f x` — appending `f x`
to an accumulator list for each element in order. -/
def appendMapLoop (f : α → β) (acc : List β) (xs : List α) : List β :=
  xs.foldl (fun a x => a ++ [f x]) acc

/-- `bpy.data.objects.get(name)`: the (first) object with that name. -/
def objectsGet (objects : List SceneObject) (nm : String) : Option SceneObject :=
  objects.find? (fun ob => ob.name == nm)

/-- Remove the (first) object with the given name, if present — the net
effect of `obj = bpy.data.objects.get(name); if obj: remove_light_obj(obj)`.
Data-block bookkeeping of `remove_light_obj` is not part of the state. -/
def eraseFirstByName : List SceneObject → String → List SceneObject
  | [], _ => []
  | ob :: rest, nm => if ob.name == nm then rest else ob :: eraseFirstByName rest nm

/-- Replace the (first) object with the given name by `f` of it: in-place
mutation of the object returned by `bpy.data.objects.get(name)`. -/
def updateFirstByName : List SceneObject → String → (SceneObject → SceneObject) → List SceneObject
  | [], _, _ => []
  | ob :: rest, nm, f =>
      if ob.name == nm then f ob :: rest else ob :: updateFirstByName rest nm f

/-!  Operators.  -/

/-- `RTLD_OT_add_light.execute` (enum string used as the base name). -/
def kindStr : LightKind → String
  | .POINT => "POINT"
  | .SUN => "SUN"
  | .SPOT => "SPOT"
  | .AREA => "AREA"

/-- `RTLD_OT_add_light.execute`: create a light at the 3D cursor, append a
mirror entry filled from it, select it. -/
def addLight (hd : LightKind → LightData) (light_type : LightKind)
    (s : SceneState) : ExecResult :=
  let ob0 := create_light hd (kindStr light_type) light_type
  let ob := { ob0 with location := s.cursor }
  let spec := specFromSceneObj ob
  ⟨.FINISHED, [],
   { s with
     objects := s.objects ++ [ob]
     lights := s.lights ++ [spec]
     active_light_index := (s.lights.length : Int)
     selected_light_name := ob.name }⟩

/-- `RTLD_OT_remove_light.execute`: bounds-check the active index, remove
the named object if it exists, drop the mirror entry, and re-clamp the
index to `max(0, min(idx - 1, len - 1))` (length after removal). -/
def removeLightExec (s : SceneState) : ExecResult :=
  let idx := s.active_light_index
  if h : idx < 0 ∨ (s.lights.length : Int) ≤ idx then
    ⟨.CANCELLED, [], s⟩
  else
    have hb : idx.toNat < s.lights.length := by omega
    let name := (s.lights.get ⟨idx.toNat, hb⟩).name
    let lights' := s.lights.eraseIdx idx.toNat
    ⟨.FINISHED, [],
     { s with
       objects := eraseFirstByName s.objects name
       lights := lights'
       active_light_index := max 0 (min (idx - 1) ((lights'.length : Int) - 1)) }⟩

/-- `RTLD_OT_sync_from_scene.execute`: clear the mirror list and refill
it with one entry per RTLD light found in the scene, in scene order. -/
def syncFromScene (s : SceneState) : ExecResult :=
  ⟨.FINISHED, [],
   { s with lights := appendMapLoop specFromSceneObj [] (find_rtld_lights s.objects) }⟩

/-- `ld.type = spec.type; ld.color = ...; ...`: push one mirror entry onto
a light object. The type is assigned first, so whether the `size` /
`spot_size` assignments succeed is decided by the new kind. The `.other`
branch is unreachable at the use site (guarded by `applyLightProps`). -/
def applySpecToObj (spec : RTLDLightSpec) (ob : SceneObject) : SceneObject :=
  match ob.data with
  | .other => ob
  | .light d =>
      let d1 := { d with kind := spec.type, color := spec.color, energy := spec.energy }
      let d2 := trySetSize d1 spec.size
      let d3 := trySetSpotSize d2 spec.spot_size
      let d4 := { d3 with use_shadow := spec.use_shadow }
      { ob with data := .light d4, location := spec.location, rotation_euler := spec.rotation }

/-- `RTLD_OT_apply_light_props.execute`. `none` models the paths on which
the Python code would raise an uncaught exception: an out-of-range active
index (`poll` prevents invoking the operator then) or a matching object
whose data block is not a light (assigning `.type` to it raises). -/
def applyLightProps (s : SceneState) : Option ExecResult :=
  let idx := s.active_light_index
  if h : idx < 0 ∨ (s.lights.length : Int) ≤ idx then
    none
  else
    have hb : idx.toNat < s.lights.length := by omega
    let spec := s.lights.get ⟨idx.toNat, hb⟩
    match objectsGet s.objects spec.name with
    | none => some ⟨.CANCELLED, ["Light object not found in scene"], s⟩
    | some ob =>
        match ob.data with
        | .other => none
        | .light _ =>
            some ⟨.FINISHED, [],
              { s with objects := updateFirstByName s.objects spec.name (applySpecToObj spec) }⟩

/-- The preset enum of `RTLD_OT_apply_preset`. The source's 'STUDIO'
item (label 'Studio / Soft') is spelled STUDIO_SOFT here. -/
inductive Preset where
  | THREE_POINT
  | CINEMATIC
  | SUNSET
  | STUDIO_SOFT
  | COOL_AMBIENT
deriving DecidableEq, Repr

/-- Update the light data of a (light) object; used for the direct
`x.data.field = value` assignments in the preset recipes, which are all
type-correct in the source. -/
def withLight (ob : SceneObject) (f : LightData → LightData) : SceneObject :=
  match ob.data with
  | .light d => { ob with data := .light (f d) }
  | .other => ob

/-- The hardcoded light objects each preset branch of
`RTLD_OT_apply_preset.execute` creates, in creation order, with exactly
the parameter assignments of the source; unassigned data fields keep the
host defaults `hd`. -/
def presetCreated (hd : LightKind → LightData) : Preset → List SceneObject
  | .THREE_POINT =>
      let key := create_light hd "Key" .SPOT
      let key := { key with location := ⟨fl 25 1, fl (-2) 0, fl 2 0⟩, rotation_euler := ⟨fl 9 1, fl 0 0, fl 23 1⟩ }
      let key := withLight key (fun d => { d with energy := fl 1200 0, color := ⟨fl 1 0, fl 95 2, fl 9 1⟩, spot_size := fl 9 1 })
      let fill := create_light hd "Fill" .AREA
      let fill := { fill with location := ⟨fl (-2) 0, fl (-15) 1, fl 15 1⟩, rotation_euler := ⟨fl 11 1, fl 0 0, fl (-5) 1⟩ }
      let fill := withLight fill (fun d => { d with energy := fl 400 0, size := fl 15 1, color := ⟨fl 9 1, fl 95 2, fl 1 0⟩ })
      let rim := create_light hd "Rim" .SUN
      let rim := { rim with location := ⟨fl (-3) 0, fl 3 0, fl 4 0⟩ }
      let rim := withLight rim (fun d => { d with energy := fl 3 0, color := ⟨fl 1 0, fl 8 1, fl 6 1⟩ })
      [key, fill, rim]
  | .CINEMATIC =>
      let key := create_light hd "CineKey" .SPOT
      let key := { key with location := ⟨fl 4 0, fl (-3) 0, fl 3 0⟩ }
      let key := withLight key (fun d => { d with energy := fl 1600 0, color := ⟨fl 1 0, fl 85 2, fl 78 2⟩, spot_size := fl 6 1 })
      let rim := create_light hd "CineRim" .SUN
      let rim := { rim with location := ⟨fl (-4) 0, fl 4 0, fl 6 0⟩ }
      let rim := withLight rim (fun d => { d with energy := fl 25 1, color := ⟨fl 1 0, fl 5 1, fl 3 1⟩ })
      let fill := create_light hd "CineFill" .AREA
      let fill := { fill with location := ⟨fl (-15) 1, fl (-2) 0, fl 14 1⟩ }
      let fill := withLight fill (fun d => { d with energy := fl 300 0, size := fl 18 1 })
      [key, rim, fill]
  | .SUNSET =>
      let sun := create_light hd "SunsetSun" .SUN
      let sun := withLight sun (fun d => { d with energy := fl 5 0, color := ⟨fl 1 0, fl 4 1, fl 2 1⟩ })
      let sun := { sun with rotation_euler := ⟨fl 9 1, fl 0 0, fl (-7) 1⟩ }
      let warm_fill := create_light hd "WarmFill" .AREA
      let warm_fill := { warm_fill with location := ⟨fl (-2) 0, fl (-1) 0, fl 12 1⟩ }
      let warm_fill := withLight warm_fill (fun d => { d with energy := fl 200 0, color := ⟨fl 1 0, fl 6 1, fl 5 1⟩ })
      [sun, warm_fill]
  | .STUDIO_SOFT =>
      let left := create_light hd "StudioLeft" .AREA
      let left := { left with location := ⟨fl 3 0, fl (-1) 0, fl 25 1⟩ }
      let left := withLight left (fun d => { d with size := fl 3 0, energy := fl 800 0 })
      let right := create_light hd "StudioRight" .AREA
      let right := { right with location := ⟨fl (-3) 0, fl (-1) 0, fl 25 1⟩ }
      let right := withLight right (fun d => { d with size := fl 3 0, energy := fl 650 0 })
      let rim := create_light hd "StudioRim" .SPOT
      let rim := { rim with location := ⟨fl 0 0, fl 5 0, fl 3 0⟩ }
      let rim := withLight rim (fun d => { d with energy := fl 300 0, spot_size := fl 12 1 })
      [left, right, rim]
  | .COOL_AMBIENT =>
      let amb := create_light hd "CoolAmb" .AREA
      let amb := withLight amb (fun d => { d with energy := fl 150 0, color := ⟨fl 6 1, fl 8 1, fl 1 0⟩ })
      let amb := { amb with location := ⟨fl 0 0, fl (-2) 0, fl 2 0⟩ }
      [amb]

/-- `RTLD_OT_apply_preset.execute`: remove every RTLD light (the loop
over `find_rtld_lights` amounts to keeping the other objects), clear the
mirror list, create the preset's lights, refill the mirror list from the
created objects in order, reset the active index. -/
def applyPreset (hd : LightKind → LightData) (p : Preset) (s : SceneState) : ExecResult :=
  let kept := s.objects.filter (fun ob => !(isLightObj ob && strStartsWith ob.name PREFIX_RTLD))
  let created := presetCreated hd p
  ⟨.FINISHED, [],
   { s with
     objects := kept ++ created
     lights := appendMapLoop specFromSceneObj [] created
     active_light_index := 0 }⟩

/-- The dictionary `RTLD_OT_save_profile.execute` appends to the JSON
array for one mirror entry (all keys present). -/
def recOfSpec (ls : RTLDLightSpec) : LightRecord :=
  { name := some ls.name
    type := some ls.type
    color := some ls.color
    energy := some ls.energy
    size := some ls.size
    spot_size := some ls.spot_size
    use_shadow := some ls.use_shadow
    location := some ls.location
    rotation := some ls.rotation }

/-- `json.dumps` of the mirror list: one record per entry, in order. -/
def serializeLights (lights : List RTLDLightSpec) : List LightRecord :=
  lights.map recOfSpec

/-- `RTLD_OT_save_profile.execute`: reject a blank (stripped) name,
otherwise append one profile holding the serialized mirror list. -/
def saveProfile (s : SceneState) : ExecResult :=
  let name := pyStrip s.profile_name
  if name = "" then
    ⟨.CANCELLED, ["Please set a profile name"], s⟩
  else
    ⟨.FINISHED, ["Profile saved"],
     { s with profiles := s.profiles ++ [{ name := name, data_json := .records (serializeLights s.lights) }] }⟩

/-- The body of the per-record loop of `RTLD_OT_load_profile.execute`:
create a light from one stored record (with `dict.get` defaults), push
the record's values onto it (best effort for `size`/`spot_size`), and
read the object back into a fresh mirror entry. Returns the created
object and the mirror entry. -/
def loadItem (hd : LightKind → LightData) (item : LightRecord) :
    SceneObject × RTLDLightSpec :=
  let k := item.type.getD .POINT
  let d1 := { hd k with
              kind := k
              color := item.color.getD ⟨fl 1 0, fl 1 0, fl 1 0⟩
              energy := item.energy.getD (fl 10 0) }
  let d2 := trySetSize d1 (item.size.getD (fl 25 2))
  let d3 := trySetSpotSize d2 (item.spot_size.getD (fl 785398 6))
  let d4 := { d3 with use_shadow := item.use_shadow.getD true }
  let ob : SceneObject :=
    { name := rtldLightName (item.name.getD "ProfileLight")
      data := .light d4
      location := item.location.getD ⟨fl 0 0, fl 0 0, fl 0 0⟩
      rotation_euler := item.rotation.getD ⟨fl 0 0, fl 0 0, fl 0 0⟩ }
  (ob, specFromSceneObj ob)

/-- `RTLD_OT_load_profile.execute`: bounds-check the index, parse the
stored JSON (abort with an error report if it is malformed), then remove
every RTLD light, clear the mirror list, and recreate one light object
and one mirror entry per stored record, in array order. -/
def loadProfile (hd : LightKind → LightData) (index : Int) (s : SceneState) : ExecResult :=
  if h : index < 0 ∨ (s.profiles.length : Int) ≤ index then
    ⟨.CANCELLED, [], s⟩
  else
    have hb : index.toNat < s.profiles.length := by omega
    let prof := s.profiles.get ⟨index.toNat, hb⟩
    match prof.data_json with
    | .malformed _ => ⟨.CANCELLED, ["Profile data corrupted"], s⟩
    | .records arr =>
        let kept := s.objects.filter (fun ob => !(isLightObj ob && strStartsWith ob.name PREFIX_RTLD))
        ⟨.FINISHED, ["Profile loaded"],
         { s with
           objects := appendMapLoop (fun it => (loadItem hd it).1) kept arr
           lights := appendMapLoop (fun it => (loadItem hd it).2) [] arr
           active_light_index := 0 }⟩

/-- `RTLD_OT_delete_profile.execute`: remove the indexed profile when the
index is in range, otherwise cancel. -/
def deleteProfile (index : Int) (s : SceneState) : ExecResult :=
  if 0 ≤ index ∧ index < (s.profiles.length : Int) then
    ⟨.FINISHED, [], { s with profiles := s.profiles.eraseIdx index.toNat }⟩
  else
    ⟨.CANCELLED, [], s⟩

/-- One iteration body of the `realtime_update` loop: push the mirrored
values onto a matching light object. The assignments are wrapped in one
`try/except: pass`; on a non-light data block the first assignment
(`ld.color = ...`) raises, so the object is left untouched. `size` and
`spot_size` are guarded by `hasattr`. The mirror `type` is NOT pushed. -/
def realtimeApply (ls : RTLDLightSpec) (ob : SceneObject) : SceneObject :=
  match ob.data with
  | .other => ob
  | .light d =>
      let d1 := { d with color := ls.color, energy := ls.energy, use_shadow := ls.use_shadow }
      let d2 := if hasSize d1.kind then { d1 with size := ls.size } else d1
      let d3 := if hasSpotSize d2.kind then { d2 with spot_size := ls.spot_size } else d2
      { ob with data := .light d3, location := ls.location, rotation_euler := ls.rotation }

/-- The `depsgraph_update_post` handler `realtime_update(scene)`: when
realtime preview is on, walk the mirror list and push each entry onto the
object found under its name, skipping entries with no matching object. -/
def realtime_update (s : SceneState) : SceneState :=
  if !s.realtime_preview then s
  else
    { s with
      objects := s.lights.foldl
        (fun objs ls =>
          match objectsGet objs ls.name with
          | none => objs
          | some _ => updateFirstByName objs ls.name (realtimeApply ls))
        s.objects }

/-!  General lemmas about the embedding's helper functions.  -/

theorem appendMapLoop_eq (f : α → β) (acc : List β) (xs : List α) :
    appendMapLoop f acc xs = acc ++ xs.map f := by
  induction xs generalizing acc with
  | nil => simp [appendMapLoop]
  | cons x xs ih =>
      show appendMapLoop f (acc ++ [f x]) xs = _
      rw [ih]
      simp

theorem strStartsWith_append (t : String) :
    strStartsWith (PREFIX_RTLD ++ t) PREFIX_RTLD = true := by
  simp [strStartsWith, List.isPrefixOf_iff_prefix, String.data_append, List.prefix_append]

theorem loadProfile_records (hd : LightKind → LightData) (s : SceneState) (j : Nat)
    (prof : RTLDProfile) (arr : List LightRecord)
    (hj : s.profiles[j]? = some prof) (hdj : prof.data_json = .records arr) :
    loadProfile hd (j : Int) s =
      ⟨.FINISHED, ["Profile loaded"],
       { s with
         objects := s.objects.filter (fun ob => !(isLightObj ob && strStartsWith ob.name PREFIX_RTLD))
                      ++ arr.map (fun it => (loadItem hd it).1)
         lights := arr.map (fun it => (loadItem hd it).2)
         active_light_index := 0 }⟩ := by
  obtain ⟨hlt, hget⟩ := List.getElem?_eq_some.mp hj
  have hcond : ¬((j : Int) < 0 ∨ (s.profiles.length : Int) ≤ (j : Int)) := by omega
  rw [loadProfile, dif_neg hcond]
  have hfin : s.profiles.get ⟨((j : Int)).toNat, by omega⟩ = prof := by
    simp [List.get_eq_getElem, Int.toNat_natCast, hget]
  simp only [hfin, hdj]
  simp [appendMapLoop_eq]

theorem loadProfile_malformed_eq (hd : LightKind → LightData) (s : SceneState) (j : Nat)
    (prof : RTLDProfile) (raw : String)
    (hj : s.profiles[j]? = some prof) (hdj : prof.data_json = .malformed raw) :
    loadProfile hd (j : Int) s = ⟨.CANCELLED, ["Profile data corrupted"], s⟩ := by
  obtain ⟨hlt, hget⟩ := List.getElem?_eq_some.mp hj
  have hcond : ¬((j : Int) < 0 ∨ (s.profiles.length : Int) ≤ (j : Int)) := by omega
  rw [loadProfile, dif_neg hcond]
  have hfin : s.profiles.get ⟨((j : Int)).toNat, by omega⟩ = prof := by
    simp [List.get_eq_getElem, Int.toNat_natCast, hget]
  simp only [hfin, hdj]

/-!  Shared concrete fixtures used by witnesses and counterexamples.  -/

/-- A concrete choice of host light-data defaults (white, energy 10). -/
def stdLightData : LightKind → LightData := fun k =>
  { kind := k, color := ⟨fl 1 0, fl 1 0, fl 1 0⟩, energy := fl 10 0
    size := fl 25 2, spot_size := fl 785398 6, use_shadow := true }

/-- An empty scene with the add-on's default scene properties. -/
def baseState : SceneState :=
  { objects := [], lights := [], active_light_index := 0, profiles := []
    profile_name := "NewProfile", realtime_preview := true
    selected_light_name := "", cursor := ⟨fl 0 0, fl 0 0, fl 0 0⟩ }

/-- A concrete point-light mirror entry whose `size` field was edited. -/
def demoSpec : RTLDLightSpec :=
  { name := "RTLD_X", type := .POINT, color := ⟨fl 1 0, fl 1 0, fl 1 0⟩, energy := fl 5 0
    size := fl 7 1, spot_size := fl 785398 6, use_shadow := true
    location := ⟨fl 0 0, fl 0 0, fl 0 0⟩, rotation := ⟨fl 0 0, fl 0 0, fl 0 0⟩ }

/-- A concrete stored record: a sun light named "Rim" with all fields. -/
def demoRecord : LightRecord :=
  { name := some "Rim", type := some .SUN, color := some ⟨fl 1 0, fl 8 1, fl 6 1⟩
    energy := some (fl 3 0), size := some (fl 25 2), spot_size := some (fl 785398 6)
    use_shadow := some true, location := some ⟨fl (-3) 0, fl 3 0, fl 4 0⟩, rotation := some ⟨fl 0 0, fl 0 0, fl 0 0⟩ }

/-- Witness scene for loading: one RTLD point light, one camera, one
valid stored profile holding `demoRecord`. -/
def wLoadState : SceneState :=
  { baseState with
    objects := [⟨"RTLD_Old", .light (stdLightData .POINT), ⟨fl 0 0, fl 0 0, fl 0 0⟩, ⟨fl 0 0, fl 0 0, fl 0 0⟩⟩,
                ⟨"Camera", .other, ⟨fl 1 0, fl 1 0, fl 1 0⟩, ⟨fl 0 0, fl 0 0, fl 0 0⟩⟩]
    lights := [demoSpec]
    profiles := [⟨"P1", .records [demoRecord]⟩] }

/-- Witness scene for malformed-profile loading. -/
def wBadState : SceneState :=
  { baseState with
    objects := [⟨"RTLD_Old", .light (stdLightData .POINT), ⟨fl 0 0, fl 0 0, fl 0 0⟩, ⟨fl 0 0, fl 0 0, fl 0 0⟩⟩]
    lights := [demoSpec]
    profiles := [⟨"Bad", .malformed "not json"⟩] }

/-- Scene used for the save/load round trip: one point-light mirror
entry with an edited size, and a non-blank profile name. -/
def rtState : SceneState :=
  { baseState with lights := [demoSpec], profile_name := "P" }

/-- Evaluation of the per-record load step on a record serialized from a
mirror entry: everything round-trips except the name (which is prefixed
again) and the unsupported size/spot_size attributes (which revert to the
getattr defaults). -/
theorem loadItem_recOfSpec (hd : LightKind → LightData) (l : RTLDLightSpec)
    (hc : clampColor l.color = l.color) :
    (loadItem hd (recOfSpec l)).2 =
      { l with
        name := PREFIX_RTLD ++ l.name
        size := if hasSize l.type then l.size else fl 25 2
        spot_size := if hasSpotSize l.type then l.spot_size else fl 785398 6 } := by
  cases ht : l.type <;>
    simp [loadItem, recOfSpec, specFromSceneObj, trySetSize, trySetSpotSize,
          hasSize, hasSpotSize, rtldLightName, ht, hc]

/-!  Claim C1.  -/

/-- Claim C1: for every saved profile whose stored JSON parses to an
array and every valid profile index, the load-profile operator destroys
every light object whose name starts with the add-on prefix (the
surviving objects are exactly the non-RTLD ones), clears the mirror list
and rebuilds it with one entry per stored record in array order, creates
one light object per record (appended in order), sets the active light
index to 0 and finishes successfully. -/
theorem load_profile_replaces_rtld_lights (hd : LightKind → LightData)
    (s : SceneState) (j : Nat) (prof : RTLDProfile) (arr : List LightRecord)
    (hj : s.profiles[j]? = some prof) (hdj : prof.data_json = .records arr) :
    loadProfile hd (j : Int) s =
      ⟨.FINISHED, ["Profile loaded"],
       { s with
         objects := s.objects.filter (fun ob => !(isLightObj ob && strStartsWith ob.name PREFIX_RTLD))
                      ++ arr.map (fun it => (loadItem hd it).1)
         lights := arr.map (fun it => (loadItem hd it).2)
         active_light_index := 0 }⟩ ∧
    (loadProfile hd (j : Int) s).state.lights.length = arr.length ∧
    (loadProfile hd (j : Int) s).res = .FINISHED := by
  have h := loadProfile_records hd s j prof arr hj hdj
  exact ⟨h, by rw [h]; simp, by rw [h]⟩

/-- Witness for C1: loading a concrete one-record profile into a scene
holding one RTLD light and one camera keeps the camera, destroys the old
RTLD light, and creates the recorded sun light with its mirror entry. -/
theorem load_profile_replaces_rtld_lights_witness :
    (loadProfile stdLightData ((0 : Nat) : Int) wLoadState).res = .FINISHED ∧
    (loadProfile stdLightData ((0 : Nat) : Int) wLoadState).state.objects.map (fun ob => ob.name)
      = ["Camera", "RTLD_Rim"] ∧
    (loadProfile stdLightData ((0 : Nat) : Int) wLoadState).state.lights.length = 1 ∧
    (loadProfile stdLightData ((0 : Nat) : Int) wLoadState).state.active_light_index = 0 := by
  have h := load_profile_replaces_rtld_lights stdLightData wLoadState 0
    ⟨"P1", .records [demoRecord]⟩ [demoRecord] (by decide) (by decide)
  refine ⟨?_, ?_, ?_, ?_⟩ <;> rw [h.1] <;> decide

/-!  Claim C2.  -/

/-- Claim C2: for every profile whose stored data_json does not parse,
the load-profile operator reports an error, returns CANCELLED, and the
scene state is completely unchanged: no object removed or created, the
mirror list untouched (atomicity on error). -/
theorem load_profile_malformed_atomic (hd : LightKind → LightData)
    (s : SceneState) (j : Nat) (prof : RTLDProfile) (raw : String)
    (hj : s.profiles[j]? = some prof) (hdj : prof.data_json = .malformed raw) :
    loadProfile hd (j : Int) s = ⟨.CANCELLED, ["Profile data corrupted"], s⟩ ∧
    (loadProfile hd (j : Int) s).state.objects = s.objects ∧
    (loadProfile hd (j : Int) s).state.lights = s.lights := by
  have h := loadProfile_malformed_eq hd s j prof raw hj hdj
  exact ⟨h, by rw [h], by rw [h]⟩

/-- Witness for C2: loading a concrete corrupted profile cancels out and
leaves the concrete scene exactly as it was. -/
theorem load_profile_malformed_atomic_witness :
    loadProfile stdLightData ((0 : Nat) : Int) wBadState =
      ⟨.CANCELLED, ["Profile data corrupted"], wBadState⟩ :=
  (load_profile_malformed_atomic stdLightData wBadState 0
    ⟨"Bad", .malformed "not json"⟩ "not json" (by decide) (by decide)).1

/-!  Claim C3.  -/

/-- Counterexample to claim C3 as stated: saving and re-loading a profile
does NOT recreate lights whose properties all equal the saved mirror
entries. Concretely, with one point-light mirror entry named "RTLD_X"
whose size field is 0.7, the round trip produces a mirror entry (and
light object) named "RTLD_RTLD_X" — load passes the already-prefixed
stored name through `create_light`, which prefixes it again — and its
size is reset to 0.25, because a point light has no size attribute to
carry the value. -/
theorem save_load_roundtrip_counterexample :
    (loadProfile stdLightData ((0 : Nat) : Int) (saveProfile rtState).state).state.lights
      ≠ rtState.lights ∧
    (loadProfile stdLightData ((0 : Nat) : Int) (saveProfile rtState).state).state.lights.map
        (fun l => l.name) = ["RTLD_RTLD_X"] ∧
    rtState.lights.map (fun l => l.name) = ["RTLD_X"] ∧
    (loadProfile stdLightData ((0 : Nat) : Int) (saveProfile rtState).state).state.lights.map
        (fun l => l.size) = [fl 25 2] ∧
    rtState.lights.map (fun l => l.size) = [fl 7 1] := by
  decide

/-- Claim C3 amended: saving the mirror list and loading the resulting
profile recreates mirror entries (and lights) whose type, color, energy,
use_shadow, location and rotation equal those saved; the name, however,
gains one more "RTLD_" prefix, and size (resp. spot_size) is preserved
only for kinds carrying that attribute (AREA resp. SPOT), reverting to
the defaults 0.25 (resp. 0.785398) otherwise. Stated for saved color
components already inside the mirror property's [0,1] range (every value
actually stored in the mirror is, by clamping). -/
theorem save_load_roundtrip_amended (hd : LightKind → LightData) (s : SceneState)
    (hname : ¬ pyStrip s.profile_name = "")
    (hcol : ∀ l ∈ s.lights, clampColor l.color = l.color) :
    (loadProfile hd ((s.profiles.length : Nat) : Int) (saveProfile s).state).res = .FINISHED ∧
    (loadProfile hd ((s.profiles.length : Nat) : Int) (saveProfile s).state).state.lights
      = s.lights.map (fun l =>
          { l with
            name := PREFIX_RTLD ++ l.name
            size := if hasSize l.type then l.size else fl 25 2
            spot_size := if hasSpotSize l.type then l.spot_size else fl 785398 6 }) := by
  have hsave : (saveProfile s).state =
      { s with profiles := s.profiles ++ [⟨pyStrip s.profile_name, .records (serializeLights s.lights)⟩] } := by
    simp only [saveProfile]
    rw [if_neg hname]
  have hj : (saveProfile s).state.profiles[s.profiles.length]? =
      some ⟨pyStrip s.profile_name, .records (serializeLights s.lights)⟩ := by
    rw [hsave]
    exact List.getElem?_concat_length _ _
  have h := loadProfile_records hd (saveProfile s).state s.profiles.length
      ⟨pyStrip s.profile_name, .records (serializeLights s.lights)⟩
      (serializeLights s.lights) hj rfl
  constructor
  · rw [h]
  · rw [h]
    simp only [serializeLights, List.map_map]
    exact List.map_congr_left (fun l hl => loadItem_recOfSpec hd l (hcol l hl))

/-- Witness for the amended C3: round-tripping the concrete point-light
entry yields exactly the doubly-prefixed, size-defaulted entry. -/
theorem save_load_roundtrip_amended_witness :
    (loadProfile stdLightData ((rtState.profiles.length : Nat) : Int) (saveProfile rtState).state).state.lights
      = [{ demoSpec with name := "RTLD_RTLD_X", size := fl 25 2 }] := by
  have h := save_load_roundtrip_amended stdLightData rtState (by decide) (by decide)
  exact h.2.trans (by decide)

/-!  Further shared fixtures.  -/

/-- A concrete area-light mirror entry. -/
def demoSpec2 : RTLDLightSpec :=
  { name := "RTLD_Y", type := .AREA, color := ⟨fl 9 1, fl 95 2, fl 1 0⟩, energy := fl 400 0
    size := fl 15 1, spot_size := fl 785398 6, use_shadow := false
    location := ⟨fl (-2) 0, fl (-15) 1, fl 15 1⟩, rotation := ⟨fl 11 1, fl 0 0, fl (-5) 1⟩ }

/-- Scene with a name that strips to "My Profile". -/
def wSaveState : SceneState :=
  { baseState with lights := [demoSpec], profile_name := "  My Profile  " }

/-- Scene whose profile name is whitespace only. -/
def wBlankState : SceneState :=
  { baseState with lights := [demoSpec], profile_name := "   " }

/-- Scene with two saved profiles. -/
def wDelState : SceneState :=
  { baseState with profiles := [⟨"A", .records []⟩, ⟨"B", .malformed "x"⟩] }

/-- Scene with two mirror entries, active index on the second. -/
def wRemState : SceneState :=
  { baseState with lights := [demoSpec, demoSpec2], active_light_index := 1 }

/-- Scene whose active index is out of bounds. -/
def wRemOOB : SceneState :=
  { baseState with lights := [demoSpec], active_light_index := 7 }

/-!  Claim C6.  -/

/-- Claim C6: saving with a profile name that is empty after stripping
whitespace warns (a message is reported) and cancels without touching the
state; with a non-blank name it appends exactly one profile carrying the
stripped name and the serialization of the current mirror list, leaving
the mirror list, the objects and the existing profiles unchanged. -/
theorem save_profile_spec (s : SceneState) :
    (pyStrip s.profile_name = "" →
      (saveProfile s).res = .CANCELLED ∧ (saveProfile s).msgs ≠ [] ∧ (saveProfile s).state = s) ∧
    (¬ pyStrip s.profile_name = "" →
      (saveProfile s).res = .FINISHED ∧
      (saveProfile s).state.profiles =
        s.profiles ++ [⟨pyStrip s.profile_name, .records (serializeLights s.lights)⟩] ∧
      (saveProfile s).state.lights = s.lights ∧
      (saveProfile s).state.objects = s.objects ∧
      (saveProfile s).state.active_light_index = s.active_light_index) := by
  by_cases h : pyStrip s.profile_name = ""
  · have he : saveProfile s = ⟨.CANCELLED, ["Please set a profile name"], s⟩ := by
      simp only [saveProfile]
      rw [if_pos h]
    exact ⟨fun _ => by rw [he]; exact ⟨rfl, by simp, rfl⟩, fun hc => absurd h hc⟩
  · have he : saveProfile s =
        ⟨.FINISHED, ["Profile saved"],
         { s with profiles := s.profiles ++ [⟨pyStrip s.profile_name, .records (serializeLights s.lights)⟩] }⟩ := by
      simp only [saveProfile]
      rw [if_neg h]
    exact ⟨fun hc => absurd hc h, fun _ => by rw [he]; exact ⟨rfl, rfl, rfl, rfl, rfl⟩⟩

/-- Witness for C6: a whitespace-only name cancels and changes nothing; a
padded name stores one profile under the stripped name. -/
theorem save_profile_spec_witness :
    (saveProfile wBlankState).res = .CANCELLED ∧ (saveProfile wBlankState).state = wBlankState ∧
    (saveProfile wSaveState).res = .FINISHED ∧
    (saveProfile wSaveState).state.profiles =
      [⟨"My Profile", .records (serializeLights [demoSpec])⟩] := by
  have h1 := (save_profile_spec wBlankState).1 (by decide)
  have h2 := (save_profile_spec wSaveState).2 (by decide)
  exact ⟨h1.1, h1.2.2, h2.1, h2.2.1.trans (by decide)⟩

/-!  Claim C7.  -/

/-- Claim C7: the delete-profile operator finishes successfully exactly
when the index is in range, in which case it removes exactly the indexed
profile (the list becomes take ++ drop of the rest) and leaves lights and
objects untouched; out of range it cancels and changes nothing. -/
theorem delete_profile_spec (i : Int) (s : SceneState) :
    ((deleteProfile i s).res = .FINISHED ↔ 0 ≤ i ∧ i < (s.profiles.length : Int)) ∧
    (0 ≤ i → i < (s.profiles.length : Int) →
      (deleteProfile i s).state.profiles = s.profiles.take i.toNat ++ s.profiles.drop (i.toNat + 1) ∧
      (deleteProfile i s).state.profiles.length = s.profiles.length - 1 ∧
      (deleteProfile i s).state.lights = s.lights ∧
      (deleteProfile i s).state.objects = s.objects) ∧
    (¬ (0 ≤ i ∧ i < (s.profiles.length : Int)) → deleteProfile i s = ⟨.CANCELLED, [], s⟩) := by
  by_cases h : 0 ≤ i ∧ i < (s.profiles.length : Int)
  · have he : deleteProfile i s = ⟨.FINISHED, [], { s with profiles := s.profiles.eraseIdx i.toNat }⟩ := by
      simp only [deleteProfile]
      rw [if_pos h]
    have hb : i.toNat < s.profiles.length := by omega
    refine ⟨by rw [he]; simp [h], fun h1 h2 => ?_, fun hc => absurd h hc⟩
    rw [he]
    refine ⟨List.eraseIdx_eq_take_drop_succ .., ?_, rfl, rfl⟩
    dsimp only
    rw [List.length_eraseIdx]
    simp [hb]
  · have he : deleteProfile i s = ⟨.CANCELLED, [], s⟩ := by
      simp only [deleteProfile]
      rw [if_neg h]
    refine ⟨by rw [he]; simp [h], fun h1 h2 => absurd ⟨h1, h2⟩ h, fun _ => he⟩

/-- Witness for C7: deleting index 0 of two profiles keeps exactly the
second; deleting index 5 cancels and changes nothing. -/
theorem delete_profile_spec_witness :
    (deleteProfile 0 wDelState).res = .FINISHED ∧
    (deleteProfile 0 wDelState).state.profiles = [⟨"B", .malformed "x"⟩] ∧
    deleteProfile 5 wDelState = ⟨.CANCELLED, [], wDelState⟩ := by
  have h1 := (delete_profile_spec 0 wDelState).2.1 (by decide) (by decide)
  have h2 := (delete_profile_spec 5 wDelState).2.2 (by decide)
  exact ⟨(delete_profile_spec 0 wDelState).1.mpr ⟨by decide, by decide⟩,
         h1.1.trans (by decide), h2⟩

/-!  Claim C10.  -/

/-- The index invariant claim C10 asserts: the active light index is
non-negative, at most length - 1 when the mirror list is non-empty, and
0 when the list is empty. -/
def RTLDIndexInv (s : SceneState) : Prop :=
  0 ≤ s.active_light_index ∧
  (s.lights ≠ [] → s.active_light_index ≤ (s.lights.length : Int) - 1) ∧
  (s.lights = [] → s.active_light_index = 0)

/-- Claim C10: with an out-of-bounds stored index the remove-light
operator cancels without removing anything; with an in-bounds index it
finishes, removes one entry, and re-establishes the index invariant
unconditionally; and the invariant is preserved by every execution. -/
theorem remove_light_index_spec (s : SceneState) :
    ((s.active_light_index < 0 ∨ (s.lights.length : Int) ≤ s.active_light_index) →
        removeLightExec s = ⟨.CANCELLED, [], s⟩) ∧
    (0 ≤ s.active_light_index → s.active_light_index < (s.lights.length : Int) →
        (removeLightExec s).res = .FINISHED ∧
        (removeLightExec s).state.lights.length = s.lights.length - 1 ∧
        RTLDIndexInv (removeLightExec s).state) ∧
    (RTLDIndexInv s → RTLDIndexInv (removeLightExec s).state) := by
  by_cases h : s.active_light_index < 0 ∨ (s.lights.length : Int) ≤ s.active_light_index
  · have he : removeLightExec s = ⟨.CANCELLED, [], s⟩ := by
      simp only [removeLightExec]
      rw [dif_pos h]
    exact ⟨fun _ => he, fun h1 h2 => absurd h (by omega),
           fun hInv => by rw [he]; exact hInv⟩
  · have hb : s.active_light_index.toNat < s.lights.length := by omega
    have he : removeLightExec s =
        ⟨.FINISHED, [],
         { s with
           objects := eraseFirstByName s.objects (s.lights.get ⟨s.active_light_index.toNat, hb⟩).name
           lights := s.lights.eraseIdx s.active_light_index.toNat
           active_light_index := max 0 (min (s.active_light_index - 1)
             (((s.lights.eraseIdx s.active_light_index.toNat).length : Int) - 1)) }⟩ := by
      simp only [removeLightExec]
      rw [dif_neg h]
    have hlen : (s.lights.eraseIdx s.active_light_index.toNat).length = s.lights.length - 1 := by
      simp [List.length_eraseIdx, hb]
    have hInvNew : RTLDIndexInv (removeLightExec s).state := by
      rw [he]
      dsimp only [RTLDIndexInv]
      refine ⟨by simp, ?_, ?_⟩
      · intro hne
        have hpos : 0 < (s.lights.eraseIdx s.active_light_index.toNat).length :=
          List.length_pos.mpr hne
        rw [hlen] at hpos
        rw [hlen]
        omega
      · intro hnil
        have hz : (s.lights.eraseIdx s.active_light_index.toNat).length = 0 := by
          rw [hnil]
          rfl
        rw [hlen] at hz
        omega
    refine ⟨fun hc => absurd hc h, fun h1 h2 => ⟨by rw [he], by rw [he]; exact hlen, hInvNew⟩,
           fun _ => hInvNew⟩

/-- Witness for C10: removing index 1 of two entries finishes with one
entry left and the invariant re-established; an out-of-bounds index on a
concrete scene cancels and changes nothing. -/
theorem remove_light_index_spec_witness :
    (removeLightExec wRemState).res = .FINISHED ∧
    (removeLightExec wRemState).state.lights.length = 1 ∧
    RTLDIndexInv (removeLightExec wRemState).state ∧
    removeLightExec wRemOOB = ⟨.CANCELLED, [], wRemOOB⟩ := by
  have h1 := (remove_light_index_spec wRemState).2.1 (by decide) (by decide)
  have h2 := (remove_light_index_spec wRemOOB).1 (by decide)
  exact ⟨h1.1, h1.2.1, h1.2.2, h2⟩

/-!  Claim C8.  -/

/-- Number of lights each preset hardcodes, as the claim states them. -/
def presetCount : Preset → Nat
  | .THREE_POINT => 3
  | .CINEMATIC => 3
  | .SUNSET => 2
  | .STUDIO_SOFT => 3
  | .COOL_AMBIENT => 1

/-- The hardcoded light-object names of each preset, in creation order. -/
def presetNames : Preset → List String
  | .THREE_POINT => ["RTLD_Key", "RTLD_Fill", "RTLD_Rim"]
  | .CINEMATIC => ["RTLD_CineKey", "RTLD_CineRim", "RTLD_CineFill"]
  | .SUNSET => ["RTLD_SunsetSun", "RTLD_WarmFill"]
  | .STUDIO_SOFT => ["RTLD_StudioLeft", "RTLD_StudioRight", "RTLD_StudioRim"]
  | .COOL_AMBIENT => ["RTLD_CoolAmb"]

/-- The hardcoded energies of each preset, in creation order. -/
def presetEnergies : Preset → List PyFloat
  | .THREE_POINT => [fl 1200 0, fl 400 0, fl 3 0]
  | .CINEMATIC => [fl 1600 0, fl 25 1, fl 300 0]
  | .SUNSET => [fl 5 0, fl 200 0]
  | .STUDIO_SOFT => [fl 800 0, fl 650 0, fl 300 0]
  | .COOL_AMBIENT => [fl 150 0]

/-- The energy of a light object (0 for non-lights, which never occurs
where this is used). -/
def objEnergy (ob : SceneObject) : PyFloat :=
  match ob.data with
  | .light d => d.energy
  | .other => fl 0 0

/-- The created preset objects carry exactly the hardcoded names. -/
theorem presetCreated_names (hd : LightKind → LightData) (p : Preset) :
    (presetCreated hd p).map (fun ob => ob.name) = presetNames p := by
  cases p <;> rfl

/-- Claim C8: for every preset choice, the apply-preset operator keeps
exactly the non-RTLD objects and appends the preset's hardcoded light
objects (3 / 3 / 2 / 3 / 1 of them, with the hardcoded names and
energies, all lights), rebuilds the mirror list with one entry per
created light in creation order, resets the active index to 0 and
finishes. -/
theorem apply_preset_hardcoded (hd : LightKind → LightData) (p : Preset) (s : SceneState) :
    (applyPreset hd p s).res = .FINISHED ∧
    (applyPreset hd p s).state.objects =
      s.objects.filter (fun ob => !(isLightObj ob && strStartsWith ob.name PREFIX_RTLD))
        ++ presetCreated hd p ∧
    (applyPreset hd p s).state.lights = (presetCreated hd p).map specFromSceneObj ∧
    (applyPreset hd p s).state.lights.length = presetCount p ∧
    (applyPreset hd p s).state.active_light_index = 0 ∧
    (presetCreated hd p).map (fun ob => ob.name) = presetNames p ∧
    (presetCreated hd p).map objEnergy = presetEnergies p ∧
    (presetCreated hd p).all isLightObj = true := by
  refine ⟨rfl, rfl, ?_, ?_, rfl, presetCreated_names hd p, ?_, ?_⟩
  · simp [applyPreset, appendMapLoop_eq]
  · cases p <;> rfl
  · cases p <;> rfl
  · cases p <;> rfl

/-!  Claim C4.  -/

/-- Claim C4: when the apply-light-properties operator runs on a valid
active index whose mirror entry names an existing light object, it always
finishes; the supported attributes (type, color, energy, use_shadow,
location, rotation) are all applied, while the size assignment survives
only if the (newly assigned) type is AREA and spot_size only if it is
SPOT — otherwise the old data value is silently kept. The same best
effort holds for the per-record step of a profile load: the created
light's data carries the record's size/spot_size only for kinds that
support the attribute, keeping the host default otherwise, and the step
always produces a light. -/
theorem apply_light_props_best_effort (s : SceneState) (j : Nat) (spec : RTLDLightSpec)
    (ob : SceneObject) (d : LightData)
    (hidx : s.active_light_index = (j : Int))
    (hj : s.lights[j]? = some spec)
    (hob : objectsGet s.objects spec.name = some ob)
    (hdat : ob.data = .light d) :
    applyLightProps s =
      some ⟨.FINISHED, [],
        { s with objects := updateFirstByName s.objects spec.name (applySpecToObj spec) }⟩ ∧
    applySpecToObj spec ob =
      { ob with
        data := .light
          { kind := spec.type
            color := spec.color
            energy := spec.energy
            size := if hasSize spec.type then spec.size else d.size
            spot_size := if hasSpotSize spec.type then spec.spot_size else d.spot_size
            use_shadow := spec.use_shadow }
        location := spec.location
        rotation_euler := spec.rotation } ∧
    (∀ (hdl : LightKind → LightData) (item : LightRecord),
        lightDataOf (loadItem hdl item).1 =
          some { kind := item.type.getD .POINT
                 color := item.color.getD ⟨fl 1 0, fl 1 0, fl 1 0⟩
                 energy := item.energy.getD (fl 10 0)
                 size := if hasSize (item.type.getD .POINT) then item.size.getD (fl 25 2)
                         else (hdl (item.type.getD .POINT)).size
                 spot_size := if hasSpotSize (item.type.getD .POINT) then item.spot_size.getD (fl 785398 6)
                              else (hdl (item.type.getD .POINT)).spot_size
                 use_shadow := item.use_shadow.getD true }) := by
  obtain ⟨hlt, hget⟩ := List.getElem?_eq_some.mp hj
  refine ⟨?_, ?_, ?_⟩
  · have hcond : ¬(s.active_light_index < 0 ∨ (s.lights.length : Int) ≤ s.active_light_index) := by
      rw [hidx]
      omega
    rw [applyLightProps, dif_neg hcond]
    have hspec : s.lights.get ⟨s.active_light_index.toNat, by rw [hidx]; simpa using hlt⟩ = spec := by
      simp [List.get_eq_getElem, hidx, Int.toNat_natCast, hget]
    simp only [hspec, hob, hdat]
  · cases ht : spec.type <;>
      simp [applySpecToObj, hdat, trySetSize, trySetSpotSize, hasSize, hasSpotSize, ht]
  · intro hdl item
    cases ht : item.type.getD .POINT <;>
      simp [loadItem, lightDataOf, trySetSize, trySetSpotSize, hasSize, hasSpotSize, ht]

/-- Scene for the C4 witness: a point-typed mirror entry aimed at an
object whose data block is currently an area light. -/
def wApplyState : SceneState :=
  { baseState with
    lights := [demoSpec]
    objects := [⟨"RTLD_X", .light (stdLightData .AREA), ⟨fl 0 0, fl 0 0, fl 0 0⟩, ⟨fl 0 0, fl 0 0, fl 0 0⟩⟩] }

/-- Witness for C4: applying the point-typed entry (size 0.7) onto the
area light finishes; the type flips to POINT, so the size and spot_size
assignments are discarded (the data keeps 0.25 / 0.785398) while every
other attribute is applied. -/
theorem apply_light_props_best_effort_witness :
    applyLightProps wApplyState =
      some ⟨.FINISHED, [],
        { wApplyState with
          objects := [⟨"RTLD_X",
            .light { kind := .POINT, color := ⟨fl 1 0, fl 1 0, fl 1 0⟩, energy := fl 5 0
                     size := fl 25 2, spot_size := fl 785398 6, use_shadow := true }
            , ⟨fl 0 0, fl 0 0, fl 0 0⟩, ⟨fl 0 0, fl 0 0, fl 0 0⟩⟩] }⟩ := by
  have h := apply_light_props_best_effort wApplyState 0 demoSpec
    ⟨"RTLD_X", .light (stdLightData .AREA), ⟨fl 0 0, fl 0 0, fl 0 0⟩, ⟨fl 0 0, fl 0 0, fl 0 0⟩⟩
    (stdLightData .AREA) (by decide) (by decide) (by decide) (by decide)
  exact h.1.trans (by decide)

/-!  Claim C9.  -/

/-- The mirror-capture block copies the object's name verbatim. -/
theorem specFromSceneObj_name (ob : SceneObject) : (specFromSceneObj ob).name = ob.name := by
  cases h : ob.data <;> simp [specFromSceneObj, h]

/-- Claim C9: the add-on prefix is the literal "RTLD_"; every object
`create_light` produces carries it; the sync-from-scene operator rebuilds
the mirror list from exactly the scene objects that are lights with that
prefix (same names in the same order, all others ignored); and every
object present after add-light, apply-preset or load-profile either
already existed or carries the prefix. -/
theorem rtld_prefix_invariant :
    PREFIX_RTLD = "RTLD_" ∧
    (∀ (hd : LightKind → LightData) (nm : String) (k : LightKind),
        strStartsWith (create_light hd nm k).name PREFIX_RTLD = true) ∧
    (∀ s : SceneState,
        (syncFromScene s).state.lights.map (fun ls => ls.name) =
          (s.objects.filter (fun ob => isLightObj ob && strStartsWith ob.name PREFIX_RTLD)).map
            (fun ob => ob.name)) ∧
    (∀ (hd : LightKind → LightData) (k : LightKind) (s : SceneState),
        ∀ ob ∈ (addLight hd k s).state.objects,
          ob ∈ s.objects ∨ strStartsWith ob.name PREFIX_RTLD = true) ∧
    (∀ (hd : LightKind → LightData) (p : Preset) (s : SceneState),
        ∀ ob ∈ (applyPreset hd p s).state.objects,
          ob ∈ s.objects ∨ strStartsWith ob.name PREFIX_RTLD = true) ∧
    (∀ (hd : LightKind → LightData) (i : Int) (s : SceneState),
        ∀ ob ∈ (loadProfile hd i s).state.objects,
          ob ∈ s.objects ∨ strStartsWith ob.name PREFIX_RTLD = true) := by
  refine ⟨rfl, ?_, ?_, ?_, ?_, ?_⟩
  · intro hd nm k
    exact strStartsWith_append nm
  · intro s
    simp only [syncFromScene, appendMapLoop_eq, List.nil_append, List.map_map,
               find_rtld_lights]
    exact List.map_congr_left (fun ob _ => specFromSceneObj_name ob)
  · intro hd k s ob hob
    simp only [addLight] at hob
    rw [List.mem_append] at hob
    rcases hob with h | h
    · exact Or.inl h
    · right
      simp only [List.mem_singleton] at h
      subst h
      exact strStartsWith_append _
  · intro hd p s ob hob
    simp only [applyPreset] at hob
    rw [List.mem_append] at hob
    rcases hob with h | h
    · exact Or.inl (List.mem_filter.mp h).1
    · right
      have hn : ob.name ∈ presetNames p := by
        rw [← presetCreated_names hd p]
        exact List.mem_map_of_mem _ h
      have hall : ∀ nm ∈ presetNames p, strStartsWith nm PREFIX_RTLD = true := by
        cases p <;> decide
      exact hall ob.name hn
  · intro hd i s ob hob
    by_cases hg : i < 0 ∨ (s.profiles.length : Int) ≤ i
    · rw [loadProfile, dif_pos hg] at hob
      exact Or.inl hob
    · rw [loadProfile, dif_neg hg] at hob
      dsimp only at hob
      split at hob
      · exact Or.inl hob
      · simp only [appendMapLoop_eq] at hob
        rw [List.mem_append] at hob
        rcases hob with h | h
        · exact Or.inl (List.mem_filter.mp h).1
        · right
          rw [List.mem_map] at h
          obtain ⟨it, _, rfl⟩ := h
          exact strStartsWith_append _

/-- The object the COOL_AMBIENT preset creates, spelled out. -/
def wPresetObj : SceneObject :=
  ⟨"RTLD_CoolAmb",
   .light { kind := .AREA, color := ⟨fl 6 1, fl 8 1, fl 1 0⟩, energy := fl 150 0
            size := fl 25 2, spot_size := fl 785398 6, use_shadow := true }
   , ⟨fl 0 0, fl (-2) 0, fl 2 0⟩, ⟨fl 0 0, fl 0 0, fl 0 0⟩⟩

/-- Witness for C9: a freshly created point light's name is prefixed;
syncing the concrete two-object scene lists exactly the RTLD light; the
preset-created object in an empty scene carries the prefix. -/
theorem rtld_prefix_invariant_witness :
    strStartsWith (create_light stdLightData "POINT" .POINT).name PREFIX_RTLD = true ∧
    ((syncFromScene wLoadState).state.lights.map (fun ls => ls.name) = ["RTLD_Old"]) ∧
    (wPresetObj ∈ baseState.objects ∨ strStartsWith wPresetObj.name PREFIX_RTLD = true) := by
  refine ⟨rtld_prefix_invariant.2.1 stdLightData "POINT" .POINT, ?_, ?_⟩
  · exact (rtld_prefix_invariant.2.2.1 wLoadState).trans (by decide)
  · exact rtld_prefix_invariant.2.2.2.2.1 stdLightData .COOL_AMBIENT baseState wPresetObj (by decide)

/-!  Claim C5.  -/

/-- Pushing mirror values onto an object never changes its name. -/
theorem realtimeApply_name (ls : RTLDLightSpec) (ob : SceneObject) :
    (realtimeApply ls ob).name = ob.name := by
  cases h : ob.data <;> simp [realtimeApply, h]

/-- A name-preserving in-place update keeps the scene's name list. -/
theorem updateFirstByName_names (objs : List SceneObject) (nm : String)
    (f : SceneObject → SceneObject) (hf : ∀ x, (f x).name = x.name) :
    (updateFirstByName objs nm f).map (fun ob => ob.name) = objs.map (fun ob => ob.name) := by
  induction objs with
  | nil => rfl
  | cons ob rest ih =>
      by_cases h : (ob.name == nm) = true
      · simp [updateFirstByName, h, hf]
      · simp [updateFirstByName, h, ih]

/-- Unfolding of the by-name lookup on a cons cell. -/
theorem objectsGet_cons (ob : SceneObject) (rest : List SceneObject) (nm : String) :
    objectsGet (ob :: rest) nm = if ob.name == nm then some ob else objectsGet rest nm := by
  by_cases hb : (ob.name == nm) = true
  · rw [if_pos hb]
    exact List.find?_cons_of_pos _ hb
  · rw [if_neg hb]
    exact List.find?_cons_of_neg _ hb

/-- Unfolding of the by-name update on a cons cell. -/
theorem updateFirstByName_cons (ob : SceneObject) (rest : List SceneObject) (nm : String)
    (f : SceneObject → SceneObject) :
    updateFirstByName (ob :: rest) nm f =
      if ob.name == nm then f ob :: rest else ob :: updateFirstByName rest nm f := rfl

/-- Updating a name with no matching object changes nothing (this is the
`if not obj: continue` skip of the handler loop). -/
theorem updateFirstByName_of_not_found (objs : List SceneObject) (nm : String)
    (f : SceneObject → SceneObject) (h : objectsGet objs nm = none) :
    updateFirstByName objs nm f = objs := by
  induction objs with
  | nil => rfl
  | cons ob rest ih =>
      rw [objectsGet_cons] at h
      by_cases hb : (ob.name == nm) = true
      · rw [if_pos hb] at h
        exact absurd h (by simp)
      · rw [if_neg hb] at h
        rw [updateFirstByName_cons, if_neg hb, ih h]

/-- The guarded loop body collapses to the unguarded update, since a
missed lookup makes the update a no-op anyway. -/
theorem realtimeStep_eq (objs : List SceneObject) (nm : String) (f : SceneObject → SceneObject) :
    (match objectsGet objs nm with
     | none => objs
     | some _ => updateFirstByName objs nm f) = updateFirstByName objs nm f := by
  cases h : objectsGet objs nm with
  | none => exact (updateFirstByName_of_not_found objs nm f h).symm
  | some ob => rfl

/-- A conditional map over objects none of which bear the name is the
identity. -/
theorem map_ite_of_not_mem (objs : List SceneObject) (nm : String)
    (f : SceneObject → SceneObject) (h : nm ∉ objs.map (fun ob => ob.name)) :
    objs.map (fun ob => if ob.name == nm then f ob else ob) = objs := by
  induction objs with
  | nil => rfl
  | cons ob rest ih =>
      simp only [List.map_cons, List.mem_cons] at h ⊢
      push_neg at h
      have hne : ¬(ob.name == nm) = true := by
        simp only [beq_iff_eq]
        exact fun hx => h.1 hx.symm
      rw [if_neg hne, ih h.2]

/-- With unique object names (as the host guarantees), updating the first
match is a pointwise conditional map. -/
theorem updateFirstByName_eq_map (objs : List SceneObject) (nm : String)
    (f : SceneObject → SceneObject) (h : (objs.map (fun ob => ob.name)).Nodup) :
    updateFirstByName objs nm f = objs.map (fun ob => if ob.name == nm then f ob else ob) := by
  induction objs with
  | nil => rfl
  | cons ob rest ih =>
      rw [List.map_cons, List.nodup_cons] at h
      rw [updateFirstByName_cons, List.map_cons]
      by_cases hb : (ob.name == nm) = true
      · have heq : ob.name = nm := by simpa using hb
        rw [if_pos hb, if_pos hb]
        rw [map_ite_of_not_mem rest nm f (heq ▸ h.1)]
      · rw [if_neg hb, if_neg hb, ih h.2]

/-- A by-name search over entries none of which bear the name misses. -/
theorem find?_name_eq_none (rest : List RTLDLightSpec) (x : String)
    (h : x ∉ rest.map (fun ls => ls.name)) :
    rest.find? (fun ls => ls.name == x) = none := by
  rw [List.find?_eq_none]
  intro ls hls
  simp only [beq_iff_eq]
  intro hx
  exact h (hx ▸ List.mem_map_of_mem _ hls)

/-- The handler's fold over the mirror list, under unique object and
entry names, acts pointwise: each object is rewritten by the entry bearing
its name, if any, and left alone otherwise. -/
theorem applyAll_eq (lights : List RTLDLightSpec) (objs : List SceneObject)
    (hobjs : (objs.map (fun ob => ob.name)).Nodup)
    (hlights : (lights.map (fun ls => ls.name)).Nodup) :
    lights.foldl (fun os ls =>
        match objectsGet os ls.name with
        | none => os
        | some _ => updateFirstByName os ls.name (realtimeApply ls)) objs
      = objs.map (fun ob =>
          match lights.find? (fun ls => ls.name == ob.name) with
          | some ls => realtimeApply ls ob
          | none => ob) := by
  induction lights generalizing objs with
  | nil =>
      simp
  | cons ls rest ih =>
      rw [List.foldl_cons, realtimeStep_eq, updateFirstByName_eq_map objs ls.name _ hobjs]
      rw [List.map_cons, List.nodup_cons] at hlights
      have hobjs' : ((objs.map (fun ob => if ob.name == ls.name then realtimeApply ls ob else ob)).map
          (fun ob => ob.name)).Nodup := by
        rw [← updateFirstByName_eq_map objs ls.name _ hobjs]
        rw [updateFirstByName_names objs ls.name _ (realtimeApply_name ls)]
        exact hobjs
      rw [ih _ hobjs' hlights.2, List.map_map]
      refine List.map_congr_left (fun ob _ => ?_)
      by_cases heq : ob.name = ls.name
      · have hb1 : (ob.name == ls.name) = true := by simpa using heq
        have hb2 : (ls.name == ob.name) = true := by simpa using heq.symm
        simp only [Function.comp_apply, if_pos hb1, realtimeApply_name]
        rw [@List.find?_cons_of_pos _ (fun l => l.name == ob.name) ls rest hb2]
        have hnone : rest.find? (fun l => l.name == ob.name) = none := by
          apply find?_name_eq_none
          rw [heq]
          exact hlights.1
        rw [hnone]
      · have hb1 : ¬(ob.name == ls.name) = true := by simpa using heq
        have hb2 : ¬(ls.name == ob.name) = true := by
          simp only [beq_iff_eq]
          exact fun hx => heq hx.symm
        simp only [Function.comp_apply, if_neg hb1]
        rw [@List.find?_cons_of_neg _ (fun l => l.name == ob.name) ls rest hb2]

/-- Claim C5: when realtime preview is disabled the depsgraph handler
changes nothing at all. It never touches the mirror list, the profiles or
the scalar properties. On a light object the per-entry push applies the
mirrored color, energy, use_shadow, location and rotation, plus size /
spot_size when the light's kind has the attribute. With unique object and
entry names (the host keeps object names unique), enabling preview makes
the handler rewrite exactly the objects named by some mirror entry with
that entry's values, skipping entries that match no object. -/
theorem realtime_update_handler_spec (s : SceneState) :
    (s.realtime_preview = false → realtime_update s = s) ∧
    (realtime_update s).lights = s.lights ∧
    (realtime_update s).profiles = s.profiles ∧
    (realtime_update s).active_light_index = s.active_light_index ∧
    (realtime_update s).realtime_preview = s.realtime_preview ∧
    (∀ (ls : RTLDLightSpec) (ob : SceneObject) (d : LightData), ob.data = .light d →
        realtimeApply ls ob =
          { ob with
            data := .light
              { kind := d.kind
                color := ls.color
                energy := ls.energy
                size := if hasSize d.kind then ls.size else d.size
                spot_size := if hasSpotSize d.kind then ls.spot_size else d.spot_size
                use_shadow := ls.use_shadow }
            location := ls.location
            rotation_euler := ls.rotation }) ∧
    (s.realtime_preview = true →
      (s.objects.map (fun ob => ob.name)).Nodup →
      (s.lights.map (fun ls => ls.name)).Nodup →
      (realtime_update s).objects = s.objects.map (fun ob =>
          match s.lights.find? (fun ls => ls.name == ob.name) with
          | some ls => realtimeApply ls ob
          | none => ob)) := by
  refine ⟨?_, ?_, ?_, ?_, ?_, ?_, ?_⟩
  · intro h
    simp [realtime_update, h]
  · by_cases h : s.realtime_preview <;> simp [realtime_update, h]
  · by_cases h : s.realtime_preview <;> simp [realtime_update, h]
  · by_cases h : s.realtime_preview <;> simp [realtime_update, h]
  · by_cases h : s.realtime_preview <;> simp [realtime_update, h]
  · intro ls ob d hdat
    cases hk : d.kind <;> simp [realtimeApply, hdat, hasSize, hasSpotSize, hk]
  · intro h hno hnl
    simp only [realtime_update, h, Bool.not_true, Bool.false_eq_true, if_false]
    exact applyAll_eq s.lights s.objects hno hnl

/-- Scene for the C5 witness: preview enabled, one matching light, one
non-light object, and a second mirror entry matching nothing. -/
def wRTState : SceneState :=
  { baseState with
    realtime_preview := true
    objects := [⟨"RTLD_X", .light (stdLightData .POINT), ⟨fl 0 0, fl 0 0, fl 0 0⟩, ⟨fl 0 0, fl 0 0, fl 0 0⟩⟩,
                ⟨"Camera", .other, ⟨fl 1 0, fl 1 0, fl 1 0⟩, ⟨fl 0 0, fl 0 0, fl 0 0⟩⟩]
    lights := [demoSpec, demoSpec2] }

/-- Scene for the C5 witness with preview disabled. -/
def wRTOff : SceneState :=
  { baseState with
    realtime_preview := false
    objects := [⟨"RTLD_X", .light (stdLightData .POINT), ⟨fl 0 0, fl 0 0, fl 0 0⟩, ⟨fl 0 0, fl 0 0, fl 0 0⟩⟩]
    lights := [demoSpec] }

/-- Witness for C5: with preview on, the matching light receives the
entry's values (size/spot_size skipped on a point light), the non-light
object survives untouched, the unmatched entry is skipped; with preview
off the state is bit-identical. -/
theorem realtime_update_handler_spec_witness :
    (realtime_update wRTState).objects =
      [⟨"RTLD_X",
        .light { kind := .POINT, color := ⟨fl 1 0, fl 1 0, fl 1 0⟩, energy := fl 5 0
                 size := fl 25 2, spot_size := fl 785398 6, use_shadow := true }
        , ⟨fl 0 0, fl 0 0, fl 0 0⟩, ⟨fl 0 0, fl 0 0, fl 0 0⟩⟩,
       ⟨"Camera", .other, ⟨fl 1 0, fl 1 0, fl 1 0⟩, ⟨fl 0 0, fl 0 0, fl 0 0⟩⟩] ∧
    realtime_update wRTOff = wRTOff := by
  have h1 := (realtime_update_handler_spec wRTState).2.2.2.2.2.2 (by decide) (by decide) (by decide)
  have h2 := (realtime_update_handler_spec wRTOff).1 (by decide)
  exact ⟨h1.trans (by decide), h2⟩
